import Mathlib

/-!
Verification of the thread-local facade of the `fastrand` crate
(`src/thread_local.rs`), as a shallow embedding in Lean 4.

The facade owns a lazily-initialized thread-local generator instance and
re-exposes the generator's operations as free functions.  The generator
algorithm itself (`Rng` in `src/lib.rs`) is not part of the facade source;
where an operation's body lives there, it is modelled from the spec's
external-collaborator contract, and this is recorded in the definition's
doc comment.

Conventions of the embedding:
* `u64` values are `Nat`s; wrap-around is explicit `% U64`.
* The thread-local storage slot is `Option Nat`: `some s` when accessible
  and holding generator state `s`, `none` when inaccessible (torn down).
* A facade call that panics is modelled as returning `none`.
-/

namespace Fastrand

/-- The modulus of 64-bit machine arithmetic. -/
def U64 : Nat := 2 ^ 64

/-- The seed derivation performed inside the `std::thread_local!` initializer
(`thread_local.rs` lines 11-17): after hashing the current instant and the
thread id into a 64-bit `hash`, the seed is `(hash << 1) | 1` in wrapping
`u64` arithmetic.  The hash value itself is the `hash` argument here. -/
def deriveSeed (hash : Nat) : Nat :=
  ((hash % U64) <<< 1) % U64 ||| 1

/-- Seed derivation exactly as the spec words it: take the hash result and
force its lowest bit to `1` (no shift).  Stated for comparison with
`deriveSeed`, which embeds the source. -/
def deriveSeedSpec (hash : Nat) : Nat :=
  (hash % U64) ||| 1

/-- Modelled from the spec: the external generator collaborator.  The spec's
contract: the instance state is fully determined by a 64-bit seed, every
draw is a deterministic function of the current state and advances it.
The one primitive the facade source uses directly is the unbounded-range
64-bit draw `u64(..)`; a dedicated boolean draw is also part of the
contract.  Each field maps a state to the drawn value and the new state. -/
structure GenOps where
  stepU64 : Nat → Nat × Nat
  stepBool : Nat → Bool × Nat

/-- A generator instance: its 64-bit state cell (`Rng(Cell<u64>)`). -/
structure Rng where
  state : Nat

/-- Modelled from the spec: `with_seed(u64) -> instance` constructs an
instance whose state is implied by the given seed, applying no further
transformation to it. -/
def Rng.withSeed (v : Nat) : Rng :=
  ⟨v⟩

/-- The thread-local `RNG` slot of one thread: `some s` while the storage is
accessible, `none` once it has been torn down. -/
abbrev TLS := Option Nat

/-- The fixed fallback seed used by `Rng::new` when the thread-local storage
is inaccessible (`thread_local.rs` line 26). -/
def FALLBACK_SEED : Nat := 0x4d595df4d0f33173

/-- The initial thread-local instance (`thread_local.rs` lines 10-18):
`Rng::with_seed` applied to the derived seed. -/
def rngInit (hash : Nat) : Rng :=
  Rng.withSeed (deriveSeed hash)

/-- `Rng::new` (`thread_local.rs` lines 23-28): draws a `u64` from the
thread-local instance via `RNG.try_with` when the storage is accessible
(also advancing that instance's state), falls back to `FALLBACK_SEED`
when it is not, and passes the value to `with_seed`.  Returns the new
instance together with the thread-local slot after the call. -/
def rngNew (g : GenOps) (tls : TLS) : Rng × TLS :=
  match tls with
  | some s =>
    let p := g.stepU64 s
    (Rng.withSeed p.1, some p.2)
  | none => (Rng.withSeed FALLBACK_SEED, none)

/-- `Default for Rng` (`thread_local.rs` lines 31-36): `default()` simply
calls `Rng::new()`. -/
def rngDefault (g : GenOps) (tls : TLS) : Rng × TLS :=
  rngNew g tls

/-- The free function `seed` (`thread_local.rs` lines 40-42):
`RNG.with(|rng| rng.seed(seed))`.  `RNG.with` panics (`none`) when the
storage is inaccessible.  `rng.seed` is modelled from the spec:
"deterministically resets the calling thread's generator instance to the
state implied by `value`" — the new state depends on `value` alone. -/
def seedF (v : Nat) (tls : TLS) : Option TLS :=
  match tls with
  | some _ => some (some (v % U64))
  | none => none

/-- The free function `bool` (`thread_local.rs` lines 46-48):
`RNG.with(|rng| rng.bool())`; panics (`none`) when the storage is
inaccessible. -/
def boolF (g : GenOps) (tls : TLS) : Option (Bool × TLS) :=
  match tls with
  | some s =>
    let p := g.stepBool s
    some (p.1, some p.2)
  | none => none

/-- The digit character set `0`-`9` then `a`-`z`, as documented for `digit`
("Digits are represented by chars in ranges 0-9 and a-z"). -/
def digitChars : List Char :=
  "0123456789abcdefghijklmnopqrstuvwxyz".toList

/-- Modelled from the spec: `Rng::digit` (its body is in `src/lib.rs`, not
under `src/`): "base must satisfy 1 ≤ base ≤ 36; violating this is a fatal
precondition failure" — modelled as `none` — and otherwise the result is
the character of a uniformly drawn digit index in `[0, base)`, using the
charset `0`-`9` then `a`-`z`.  The index is obtained from one 64-bit draw
reduced modulo `base`. -/
def rngDigit (g : GenOps) (base : Nat) (s : Nat) : Option (Char × Nat) :=
  if base = 0 ∨ 36 < base then none
  else
    let p := g.stepU64 s
    some (digitChars.getD (p.1 % base) '0', p.2)

/-- The free function `digit` (`thread_local.rs` lines 80-82):
`RNG.with(|rng| rng.digit(base))`; panics (`none`) when the storage is
inaccessible or when the delegated call panics. -/
def digitF (g : GenOps) (base : Nat) (tls : TLS) : Option (Char × TLS) :=
  match tls with
  | some s =>
    match rngDigit g base s with
    | some p => some (p.1, some p.2)
    | none => none
  | none => none

/-- One bound of a range specification, as in the standard `RangeBounds`
abstraction: included, excluded, or unbounded. -/
inductive Bnd where
  | incl (n : Int)
  | excl (n : Int)
  | unbounded
deriving DecidableEq

/-- A range specification: a lower and an upper bound. -/
structure RangeSpec where
  lo : Bnd
  hi : Bnd
deriving DecidableEq

/-- One integer type of the per-width sampling surface: its width in bits
and signedness, from which its minimum and maximum values follow. -/
structure IntTy where
  bits : Nat
  signed : Bool
deriving DecidableEq

/-- The smallest value of an integer type. -/
def IntTy.minv (T : IntTy) : Int :=
  if T.signed then -(2 ^ (T.bits - 1)) else 0

/-- The largest value of an integer type. -/
def IntTy.maxv (T : IntTy) : Int :=
  if T.signed then 2 ^ (T.bits - 1) - 1 else 2 ^ T.bits - 1

/-- The effective (inclusive) lower bound a range specification denotes for
an integer type. -/
def IntTy.loEff (T : IntTy) : Bnd → Int
  | .incl n => n
  | .excl n => n + 1
  | .unbounded => T.minv

/-- The effective (inclusive) upper bound a range specification denotes for
an integer type. -/
def IntTy.hiEff (T : IntTy) : Bnd → Int
  | .incl n => n
  | .excl n => n - 1
  | .unbounded => T.maxv

/-- What a lower bound admits: an included bound `n` admits `n ≤ x`, an
excluded one `n < x`, an unbounded one every value the type represents. -/
def Bnd.lowAdmits (T : IntTy) : Bnd → Int → Prop
  | .incl n, x => n ≤ x
  | .excl n, x => n < x
  | .unbounded, x => T.minv ≤ x

/-- What an upper bound admits: an included bound `n` admits `x ≤ n`, an
excluded one `x < n`, an unbounded one every value the type represents. -/
def Bnd.highAdmits (T : IntTy) : Bnd → Int → Prop
  | .incl n, x => x ≤ n
  | .excl n, x => x < n
  | .unbounded, x => x ≤ T.maxv

instance : (T : IntTy) → (b : Bnd) → (x : Int) → Decidable (Bnd.lowAdmits T b x)
  | _, .incl n, x => inferInstanceAs (Decidable (n ≤ x))
  | _, .excl n, x => inferInstanceAs (Decidable (n < x))
  | T, .unbounded, x => inferInstanceAs (Decidable (T.minv ≤ x))

instance : (T : IntTy) → (b : Bnd) → (x : Int) → Decidable (Bnd.highAdmits T b x)
  | _, .incl n, x => inferInstanceAs (Decidable (x ≤ n))
  | _, .excl n, x => inferInstanceAs (Decidable (x < n))
  | T, .unbounded, x => inferInstanceAs (Decidable (x ≤ T.maxv))

/-- Membership of a value in the set of integers a range specification
denotes, with inclusive, exclusive and unbounded bound semantics spelled
out per constructor. -/
def inRange (T : IntTy) (r : RangeSpec) (x : Int) : Prop :=
  Bnd.lowAdmits T r.lo x ∧ Bnd.highAdmits T r.hi x

instance (T : IntTy) (r : RangeSpec) (x : Int) : Decidable (inRange T r x) :=
  inferInstanceAs (Decidable (_ ∧ _))

/-- Modelled from the spec: the per-width integer range sampler (the body
generated by the `integer!` macro delegates to `rng.$t(range)` in
`src/lib.rs`, not under `src/`).  The effective range must be non-empty;
an empty effective range "is a fatal precondition failure" (`none`).
Otherwise one 64-bit draw is reduced into the effective range, so the
result always lies between the effective bounds. -/
def sampleInt (T : IntTy) (g : GenOps) (r : RangeSpec) (s : Nat) :
    Option (Int × Nat) :=
  let lo := T.loEff r.lo
  let hi := T.hiEff r.hi
  if hi < lo then none
  else
    let p := g.stepU64 s
    some (lo + Int.ofNat (p.1 % (hi - lo + 1).toNat), p.2)

/-- The facade function generated by one `integer!` macro instantiation
(`thread_local.rs` lines 96-98): `RNG.with(|rng| rng.$t(range))`; panics
(`none`) when the storage is inaccessible or when the delegated call
panics. -/
def intF (T : IntTy) (g : GenOps) (r : RangeSpec) (tls : TLS) :
    Option (Int × TLS) :=
  match tls with
  | some s =>
    match sampleInt T g r s with
    | some p => some (p.1, some p.2)
    | none => none
  | none => none

/-- `u8` (pointer-sized types are modelled at 64 bits, the common target). -/
def u8T : IntTy := ⟨8, false⟩

/-- `i8`. -/
def i8T : IntTy := ⟨8, true⟩

/-- `u16`. -/
def u16T : IntTy := ⟨16, false⟩

/-- `i16`. -/
def i16T : IntTy := ⟨16, true⟩

/-- `u32`. -/
def u32T : IntTy := ⟨32, false⟩

/-- `i32`. -/
def i32T : IntTy := ⟨32, true⟩

/-- `u64`. -/
def u64T : IntTy := ⟨64, false⟩

/-- `i64`. -/
def i64T : IntTy := ⟨64, true⟩

/-- `u128`. -/
def u128T : IntTy := ⟨128, false⟩

/-- `i128`. -/
def i128T : IntTy := ⟨128, true⟩

/-- `usize` (pointer-sized, 64 bits on the modelled target). -/
def usizeT : IntTy := ⟨64, false⟩

/-- `isize` (pointer-sized, 64 bits on the modelled target). -/
def isizeT : IntTy := ⟨64, true⟩

/-- The `integer!` macro instantiations of `thread_local.rs` lines 102-113,
in source order. -/
def integerWidths : List IntTy :=
  [u8T, i8T, u16T, i16T, u32T, i32T, u64T, i64T, u128T, i128T, usizeT, isizeT]

/-- The facade function `u8` (line 102), one instantiation of `integer!`. -/
def u8F : GenOps → RangeSpec → TLS → Option (Int × TLS) := intF u8T

/-- The facade function `i8` (line 103), one instantiation of `integer!`. -/
def i8F : GenOps → RangeSpec → TLS → Option (Int × TLS) := intF i8T

/-- The facade function `u16` (line 104), one instantiation of `integer!`. -/
def u16F : GenOps → RangeSpec → TLS → Option (Int × TLS) := intF u16T

/-- The facade function `i16` (line 105), one instantiation of `integer!`. -/
def i16F : GenOps → RangeSpec → TLS → Option (Int × TLS) := intF i16T

/-- The facade function `u32` (line 106), one instantiation of `integer!`. -/
def u32F : GenOps → RangeSpec → TLS → Option (Int × TLS) := intF u32T

/-- The facade function `i32` (line 107), one instantiation of `integer!`. -/
def i32F : GenOps → RangeSpec → TLS → Option (Int × TLS) := intF i32T

/-- The facade function `u64` (line 108), one instantiation of `integer!`. -/
def u64F : GenOps → RangeSpec → TLS → Option (Int × TLS) := intF u64T

/-- The facade function `i64` (line 109), one instantiation of `integer!`. -/
def i64F : GenOps → RangeSpec → TLS → Option (Int × TLS) := intF i64T

/-- The facade function `u128` (line 110), one instantiation of `integer!`. -/
def u128F : GenOps → RangeSpec → TLS → Option (Int × TLS) := intF u128T

/-- The facade function `i128` (line 111), one instantiation of `integer!`. -/
def i128F : GenOps → RangeSpec → TLS → Option (Int × TLS) := intF i128T

/-- The facade function `usize` (line 112), one instantiation of `integer!`. -/
def usizeF : GenOps → RangeSpec → TLS → Option (Int × TLS) := intF usizeT

/-- The facade function `isize` (line 113), one instantiation of `integer!`. -/
def isizeF : GenOps → RangeSpec → TLS → Option (Int × TLS) := intF isizeT

/-- One facade call, for reasoning about call sequences on a thread. -/
inductive Op where
  | obool
  | odigit (base : Nat)
  | oint (T : IntTy) (r : RangeSpec)
  | oseed (v : Nat)
  | onew

/-- The semantics of one facade call on the calling thread's slot: the
observable output (encoded as an `Int`) and the slot afterwards, or `none`
when the call panics. -/
def runOp (g : GenOps) : Op → TLS → Option (Int × TLS)
  | .obool, tls => (boolF g tls).map fun p => (if p.1 then 1 else 0, p.2)
  | .odigit b, tls => (digitF g b tls).map fun p => (Int.ofNat p.1.toNat, p.2)
  | .oint T r, tls => intF T g r tls
  | .oseed v, tls => (seedF v tls).map fun t2 => (0, t2)
  | .onew, tls =>
    let p := rngNew g tls
    some (Int.ofNat p.1.state, p.2)

/-- The semantics of a sequence of facade calls on one thread: the output
sequence and the final slot, or `none` if some call panics. -/
def run (g : GenOps) : List Op → TLS → Option (List Int × TLS)
  | [], tls => some ([], tls)
  | o :: os, tls =>
    match runOp g o tls with
    | none => none
    | some (x, tls2) =>
      match run g os tls2 with
      | none => none
      | some (xs, tls3) => some (x :: xs, tls3)

/-- The thread-local slots of all threads, indexed by thread id: the
`std::thread_local!` storage gives every thread its own independent slot. -/
abbrev Threads := Nat → TLS

/-- The free function `seed` called by thread `t`: it resolves thread `t`'s
own slot and applies `seedF` to it; no other thread's slot is touched. -/
def seedOn (t : Nat) (v : Nat) (m : Threads) : Threads :=
  fun u =>
    if u = t then
      match seedF v (m t) with
      | some t2 => t2
      | none => m t
    else m u

/-- A concrete generator used to instantiate universally quantified
theorems: the 64-bit draw returns the state and increments it. -/
def cg : GenOps :=
  ⟨fun s => (s % U64, (s + 1) % U64), fun s => (decide (s % 2 = 1), (s + 1) % U64)⟩

/-- A concrete generator whose 64-bit draw always returns `0`, witnessing
that an explicitly constructed instance can receive an even (indeed zero)
seed. -/
def cg0 : GenOps :=
  ⟨fun s => (0, s), fun s => (false, s)⟩

/-- A concrete thread map for witnesses: every thread accessible, state 0. -/
def m0 : Threads := fun _ => some 0

/-! ## Helper lemmas -/

/-- Or-ing a number with 1 makes it odd. -/
theorem lor_one_mod_two (x : Nat) : (x ||| 1) % 2 = 1 := by
  simp [Nat.testBit_zero]

/-- A `getD` at an index below `b` lies in the `take b` prefix. -/
theorem getD_mem_take (l : List Char) (d : Char) (b i : Nat)
    (hb : b ≤ l.length) (hi : i < b) : l.getD i d ∈ l.take b := by
  have hl : i < l.length := lt_of_lt_of_le hi hb
  have ht : i < (l.take b).length := by
    simp only [List.length_take]
    omega
  have h2 : (l.take b).get ⟨i, ht⟩ = l.get ⟨i, hl⟩ := by
    simp only [List.get_eq_getElem]
    exact List.getElem_take ..
  have h3 : l.getD i d = (l.take b).get ⟨i, ht⟩ := by
    rw [h2]
    simp [List.getD_eq_getElem l d hl, List.getElem?_eq_getElem hl]
  rw [h3]
  exact List.get_mem ..

/-- Containment between the effective bounds implies membership in the set
the range specification denotes. -/
theorem inRange_of_eff (T : IntTy) (r : RangeSpec) (x : Int)
    (hlo : T.loEff r.lo ≤ x) (hhi : x ≤ T.hiEff r.hi) : inRange T r x := by
  constructor
  · cases hb : r.lo with
    | incl n => rw [hb] at hlo; exact hlo
    | excl n =>
      rw [hb] at hlo
      simp only [IntTy.loEff] at hlo
      simp only [Bnd.lowAdmits]
      omega
    | unbounded => rw [hb] at hlo; exact hlo
  · cases hb : r.hi with
    | incl n => rw [hb] at hhi; exact hhi
    | excl n =>
      rw [hb] at hhi
      simp only [IntTy.hiEff] at hhi
      simp only [Bnd.highAdmits]
      omega
    | unbounded => rw [hb] at hhi; exact hhi

/-! ## Claims -/

/-- C1 (counterexample): the thread-local seed is NOT the hash with its
lowest bit forced to 1 — at hash value 1 the source derivation
`(hash << 1) | 1` yields 3, while forcing the lowest bit of the hash
itself yields 1. -/
theorem C1_counterexample : deriveSeed 1 ≠ deriveSeedSpec 1 := by
  decide

/-- C1 (amended): the thread-local instance's initial seed is the hash
shifted left by one bit (in wrapping 64-bit arithmetic, discarding the
hash's top bit) with the lowest bit then set to 1; it is therefore always
odd and non-zero. -/
theorem C1_amended_odd_seed (hash : Nat) :
    (rngInit hash).state = (((hash % U64) * 2) % U64) ||| 1
    ∧ (rngInit hash).state % 2 = 1
    ∧ (rngInit hash).state ≠ 0 := by
  have he : (rngInit hash).state = ((hash % U64) <<< 1) % U64 ||| 1 := rfl
  have hodd : (rngInit hash).state % 2 = 1 := by
    rw [he]
    exact lor_one_mod_two _
  refine ⟨?_, hodd, ?_⟩
  · rw [he, Nat.shiftLeft_eq, pow_one]
  · intro h0
    rw [h0] at hodd
    simp at hodd

/-- C2: with the thread-local storage accessible, `Rng::new()` returns
`with_seed` of the value drawn from the thread-local instance by the
unbounded-range u64 sample, leaving the thread-local slot holding the
advanced state; and `default()` is exactly `new()`. -/
theorem C2_new_draws_from_thread_local (g : GenOps) (s : Nat) :
    rngNew g (some s) = (Rng.withSeed (g.stepU64 s).1, some (g.stepU64 s).2)
    ∧ rngDefault = rngNew :=
  ⟨rfl, rfl⟩

/-- C3: with the thread-local storage inaccessible, `Rng::new()` silently
uses the fixed fallback seed `0x4d595df4d0f33173`, while every other
facade operation (seed, bool, digit, the integer samplers) panics. -/
theorem C3_fallback_only_in_new (g : GenOps) (v base : Nat) (T : IntTy)
    (r : RangeSpec) :
    (rngNew g none).1 = Rng.withSeed 0x4d595df4d0f33173
    ∧ seedF v none = none
    ∧ boolF g none = none
    ∧ digitF g base none = none
    ∧ intF T g r none = none :=
  ⟨rfl, rfl, rfl, rfl, rfl⟩

/-- C4: after `seed(v)` on an accessible slot, the outcome of any sequence
of facade operations is a function of `v` and the sequence alone — two
runs from arbitrary distinct prior states produce identical output
sequences and final states. -/
theorem C4_seed_determinism (g : GenOps) (v : Nat) (ops : List Op)
    (s1 s2 : Nat) :
    (seedF v (some s1)).bind (fun tls => run g ops tls)
      = (seedF v (some s2)).bind (fun tls => run g ops tls) :=
  rfl

/-- C5: `digit(base)` panics for `base = 0` or `base > 36`, and for
`1 ≤ base ≤ 36` returns a character among the first `base` characters of
`0`-`9` then `a`-`z` (for base 16: one of `0123456789abcdef`). -/
theorem C5_digit_contract (g : GenOps) (base s : Nat) :
    (base = 0 ∨ 36 < base → digitF g base (some s) = none)
    ∧ (1 ≤ base → base ≤ 36 →
        ∃ c s2, digitF g base (some s) = some (c, some s2)
          ∧ c ∈ digitChars.take base) := by
  constructor
  · intro h
    simp [digitF, rngDigit, h]
  · intro h1 h36
    have hcond : ¬ (base = 0 ∨ 36 < base) := by omega
    refine ⟨digitChars.getD ((g.stepU64 s).1 % base) '0', (g.stepU64 s).2, ?_, ?_⟩
    · simp [digitF, rngDigit, hcond]
    · refine getD_mem_take digitChars '0' base _ ?_ ?_
      · have hlen : digitChars.length = 36 := by decide
        omega
      · exact Nat.mod_lt _ (by omega)

/-- C5 witness: `digit(0)` panics and `digit(16)` yields a hexadecimal
digit character, at the concrete generator `cg` and state 0. -/
theorem C5_digit_contract_witness :
    digitF cg 0 (some 0) = none
    ∧ ∃ c s2, digitF cg 16 (some 0) = some (c, some s2)
        ∧ c ∈ digitChars.take 16 :=
  ⟨(C5_digit_contract cg 0 0).1 (Or.inl rfl),
   (C5_digit_contract cg 16 0).2 (by decide) (by decide)⟩

/-- C6: a per-width sampling call whose range specification denotes an
empty effective range panics (returns no value), both in the sampler and
through the facade. -/
theorem C6_empty_range_panics (T : IntTy) (g : GenOps) (r : RangeSpec)
    (s : Nat) (h : T.hiEff r.hi < T.loEff r.lo) :
    sampleInt T g r s = none ∧ intF T g r (some s) = none := by
  have h1 : sampleInt T g r s = none := by
    simp [sampleInt, h]
  exact ⟨h1, by simp [intF, h1]⟩

/-- C6 witness: the range `5..5` (inclusive 5, exclusive 5) is empty and
panics at the concrete generator `cg`, width `u8`, state 0. -/
theorem C6_empty_range_panics_witness :
    u8T.hiEff (Bnd.excl 5) < u8T.loEff (Bnd.incl 5)
    ∧ sampleInt u8T cg ⟨Bnd.incl 5, Bnd.excl 5⟩ 0 = none :=
  ⟨by decide,
   (C6_empty_range_panics u8T cg ⟨Bnd.incl 5, Bnd.excl 5⟩ 0 (by decide)).1⟩

/-- C7: a per-width sampling call on a non-empty range specification
returns a value inside the set the specification denotes, with inclusive,
exclusive and unbounded bound semantics honored exactly. -/
theorem C7_nonempty_in_range (T : IntTy) (g : GenOps) (r : RangeSpec)
    (s : Nat) (h : T.loEff r.lo ≤ T.hiEff r.hi) :
    ∃ x s2, intF T g r (some s) = some (x, some s2) ∧ inRange T r x := by
  have hnot : ¬ T.hiEff r.hi < T.loEff r.lo := not_lt.mpr h
  have hk : ((T.hiEff r.hi - T.loEff r.lo + 1).toNat : Int)
      = T.hiEff r.hi - T.loEff r.lo + 1 := Int.toNat_of_nonneg (by omega)
  have hkpos : 0 < (T.hiEff r.hi - T.loEff r.lo + 1).toNat := by omega
  have hmlt : (g.stepU64 s).1 % (T.hiEff r.hi - T.loEff r.lo + 1).toNat
      < (T.hiEff r.hi - T.loEff r.lo + 1).toNat := Nat.mod_lt _ hkpos
  refine ⟨T.loEff r.lo
      + Int.ofNat ((g.stepU64 s).1 % (T.hiEff r.hi - T.loEff r.lo + 1).toNat),
    (g.stepU64 s).2, ?_, ?_⟩
  · simp [intF, sampleInt, hnot]
  · apply inRange_of_eff
    · simp only [Int.ofNat_eq_natCast]
      omega
    · simp only [Int.ofNat_eq_natCast]
      omega

/-- C7 witness: sampling `0..4` (inclusive 0, exclusive 4) at width `u8`
with the concrete generator `cg` from state 0 yields a value in range. -/
theorem C7_nonempty_in_range_witness :
    u8T.loEff (Bnd.incl 0) ≤ u8T.hiEff (Bnd.excl 4)
    ∧ ∃ x s2, intF u8T cg ⟨Bnd.incl 0, Bnd.excl 4⟩ (some 0) = some (x, some s2)
        ∧ inRange u8T ⟨Bnd.incl 0, Bnd.excl 4⟩ x :=
  ⟨by decide, C7_nonempty_in_range u8T cg ⟨Bnd.incl 0, Bnd.excl 4⟩ 0 (by decide)⟩

/-- C8: `seed` called by thread `t` leaves every other thread's slot — and
hence every other thread's future draw sequence — exactly as it was. -/
theorem C8_seed_frame (g : GenOps) (t u v : Nat) (m : Threads)
    (ops : List Op) (h : u ≠ t) :
    seedOn t v m u = m u ∧ run g ops (seedOn t v m u) = run g ops (m u) := by
  have h1 : seedOn t v m u = m u := by
    simp [seedOn, h]
  exact ⟨h1, by rw [h1]⟩

/-- C8 witness: thread 0 seeding with 42 leaves thread 1's slot of the
concrete thread map `m0` unchanged. -/
theorem C8_seed_frame_witness :
    (1 : Nat) ≠ 0 ∧ seedOn 0 42 m0 1 = m0 1 :=
  ⟨by decide, (C8_seed_frame cg 0 1 42 m0 [] (by decide)).1⟩

/-- C9 (counterexample): the `integer!` macro is instantiated twelve times
(lines 102-113: u8, i8, u16, i16, u32, i32, u64, i64, u128, i128, usize,
isize), not eleven as claimed. -/
theorem C9_counterexample : ¬ integerWidths.length = 11 := by
  decide

/-- C9 (amended): the per-width integer sampling surface is twelve
functions — signed and unsigned at 8, 16, 32, 64 and 128 bits plus the two
pointer-sized types usize and isize — all being the one generic algorithm
instantiated twelve times. -/
theorem C9_amended_twelve_instantiations :
    integerWidths.length = 12
    ∧ [u8F, i8F, u16F, i16F, u32F, i32F, u64F, i64F, u128F, i128F, usizeF,
        isizeF] = integerWidths.map intF :=
  ⟨rfl, rfl⟩

/-- C10: `Rng::new()` passes the drawn 64-bit value to `with_seed`
unmodified (no low-bit forcing), so an explicitly constructed generator
can receive any seed, including zero; the odd-seed guarantee belongs only
to the thread-local instance's own initialization. -/
theorem C10_new_seed_unmodified (g : GenOps) (s : Nat) :
    ((rngNew g (some s)).1).state = (g.stepU64 s).1
    ∧ ((rngNew cg0 (some 0)).1).state = 0
    ∧ ∀ h2 : Nat, (rngInit h2).state % 2 = 1 := by
  refine ⟨rfl, rfl, fun h2 => ?_⟩
  exact lor_one_mod_two (((h2 % U64) <<< 1) % U64)

end Fastrand
